import Mathlib

/-!
Shallow embedding of the ktree ontology-construction pipeline.

The definitions below are translated from the TypeScript sources of the
repository: the ontology orchestrator (`OntologyService`), the database
persistence layer (`databaseOperations`), the structure/cluster generator
(`structureGenerator`), the subtopic labeler (`subtopicLabeler`), the topic
assigner (`topicAssigner`), the domain discoverer (`rootDomains.ts`) and the
vector storage service (`sqliteIndex.ts`).

Modelling conventions:
* JavaScript numbers are modelled as `ℚ` or `ℤ`/`ℕ` where the code only
  performs rational arithmetic, and as `ℝ` where `Math.sqrt` is involved
  (cosine similarity, vector normalization) or where values flow from those
  computations (cluster quality, timings).
* `async` provider calls (LLM requests, embedding requests) are modelled as
  explicit oracle function parameters; retries become fuelled recursion.
* JavaScript `Set`/`Map` objects are modelled as lists: `Set.has` becomes
  list membership, `Map.set`/`Map.get` becomes association-list update where
  the most recent binding wins.
* Mutation (array `push`, `Map.set`) is modelled by explicit state passing.
* Thrown errors are modelled with `Except String`.
-/

namespace Ktree

/-- A `{title, description}` pair: a discovered domain or the root domain
(`rootDomains.ts` / `Topic.ts` model). -/
structure DomainInfo where
  title : String
  description : String
deriving DecidableEq

/-- Result of the domain-discovery LLM call: one root domain plus the
top-level functional domains (`DomainDiscoveryResult` in the source). -/
structure DomainDiscoveryResult where
  rootDomain : DomainInfo
  topLevelDomains : List DomainInfo
deriving DecidableEq

/-- One subtopic proposed by the subtopic labeler. -/
structure Subtopic where
  title : String
  description : String
deriving DecidableEq

/-- The subtopic labeler's output for one domain (`SubtopicStructure`). -/
structure SubtopicStructure where
  subtopics : List Subtopic
deriving DecidableEq

/-- A candidate file as seen by the labeler and assigner: path, title and
summary (`FileCandidate` in the source). -/
structure FileCandidate where
  path : String
  title : String
  summary : String
deriving DecidableEq

/-- One file's multi-label assignment (`FileAssignment`). -/
structure FileAssignment where
  filePath : String
  subtopics : List String
deriving DecidableEq

/-- The topic assigner's output for one domain (`AssignmentResult`). -/
structure AssignmentResult where
  assignments : List FileAssignment
deriving DecidableEq

/-- A domain cluster paired with its generated subtopics, the input of the
topic assigner (`DomainWithSubtopics`). -/
structure DomainWithSubtopics where
  domain : DomainInfo
  candidates : List FileCandidate
  subtopics : SubtopicStructure
deriving DecidableEq

/-- A row of the `topics` table (`Topic` model). -/
structure Topic where
  id : String
  title : String
  description : String
  parentId : Option String
  depth : Nat
  isRoot : Bool
deriving DecidableEq

/-- A row of the `topic_node_links` table (`TopicNodeLink` model). -/
structure TopicNodeLink where
  id : String
  topicId : String
  nodeId : String
  nodeType : String
  confidence : Nat
deriving DecidableEq

/-! ### Coverage metric (`databaseOperations.ts`, `calculateCoverage`) -/

/-- `calculateCoverage(linkCount, totalFiles)` from `databaseOperations.ts`:
`100` when `totalFiles === 0`, otherwise
`Math.min(100, Math.round((linkCount / totalFiles) * 100))`. JavaScript's
`Math.round` is round-half-up, which on rationals is Mathlib's `round`
(`⌊x + 1/2⌋`). -/
def calculateCoverage (linkCount totalFiles : Nat) : ℤ :=
  if totalFiles = 0 then 100
  else min 100 (round ((linkCount : ℚ) / (totalFiles : ℚ) * 100))

/-- C3: `calculateCoverage` equals `min(100, round(linkCount/totalFiles*100))`
for positive `totalFiles`, is `100` at `totalFiles = 0`, is `0` at
`linkCount = 0` with positive total, is `100` on the diagonal, and never
exceeds `100`. -/
theorem calculateCoverage_spec (linkCount totalFiles n : Nat) :
    (0 < totalFiles →
      calculateCoverage linkCount totalFiles =
        min 100 (round ((linkCount : ℚ) / (totalFiles : ℚ) * 100)))
    ∧ calculateCoverage linkCount 0 = 100
    ∧ (0 < n → calculateCoverage 0 n = 0)
    ∧ calculateCoverage n n = 100
    ∧ calculateCoverage linkCount totalFiles ≤ 100 := by
  refine ⟨?_, ?_, ?_, ?_, ?_⟩
  · intro h
    simp [calculateCoverage, Nat.pos_iff_ne_zero.mp h]
  · simp [calculateCoverage]
  · intro h
    simp [calculateCoverage, Nat.pos_iff_ne_zero.mp h]
  · by_cases h : n = 0
    · simp [calculateCoverage, h]
    · have hq : (n : ℚ) ≠ 0 := Nat.cast_ne_zero.mpr h
      simp [calculateCoverage, h, div_self hq]
  · by_cases h : totalFiles = 0
    · simp [calculateCoverage, h]
    · simp only [calculateCoverage, if_neg h]
      exact min_le_left _ _

/-! ### Assignment validation (`topicAssigner.ts`, `validateAssignmentResult`) -/

/-- First loop of `validateAssignmentResult`: for each candidate path, throw
`"File not assigned: "` when the path is not among the assigned paths
(the `assignedPaths` set's `has` is modelled as list membership). -/
def checkCandidatesAssigned (assignedPaths : List String) :
    List String → Except String Unit
  | [] => Except.ok ()
  | p :: rest =>
    if p ∈ assignedPaths then checkCandidatesAssigned assignedPaths rest
    else Except.error ("File not assigned: " ++ p)

/-- Inner loop of `validateAssignmentResult`: each returned subtopic title
must be a generated subtopic title. -/
def checkSubtopicsKnown (subtopicTitles : List String) :
    List String → Except String Unit
  | [] => Except.ok ()
  | s :: rest =>
    if s ∈ subtopicTitles then checkSubtopicsKnown subtopicTitles rest
    else Except.error ("Invalid subtopic in assignment: " ++ s)

/-- Per-assignment body of `validateAssignmentResult`'s second loop: unknown
path, unknown subtopic, then empty subtopic list, in source order. -/
def checkAssignment (candidatePaths subtopicTitles : List String)
    (a : FileAssignment) : Except String Unit :=
  if a.filePath ∈ candidatePaths then
    match checkSubtopicsKnown subtopicTitles a.subtopics with
    | Except.error e => Except.error e
    | Except.ok _ =>
      if a.subtopics.length = 0 then
        Except.error ("File must be assigned to at least one subtopic: " ++ a.filePath)
      else Except.ok ()
  else Except.error ("Invalid file path in assignment: " ++ a.filePath)

/-- Second loop of `validateAssignmentResult` over all returned assignments. -/
def checkAssignments (candidatePaths subtopicTitles : List String) :
    List FileAssignment → Except String Unit
  | [] => Except.ok ()
  | a :: rest =>
    match checkAssignment candidatePaths subtopicTitles a with
    | Except.error e => Except.error e
    | Except.ok _ => checkAssignments candidatePaths subtopicTitles rest

/-- `validateAssignmentResult(result, domainData)` from `topicAssigner.ts`:
throws (here: returns `Except.error`) on a missing candidate, an unknown
path, an unknown subtopic title, or an empty subtopic list. -/
def validateAssignmentResult (result : AssignmentResult)
    (domainData : DomainWithSubtopics) : Except String Unit :=
  let candidatePaths := domainData.candidates.map (·.path)
  let subtopicTitles := domainData.subtopics.subtopics.map (·.title)
  let assignedPaths := result.assignments.map (·.filePath)
  match checkCandidatesAssigned assignedPaths candidatePaths with
  | Except.error e => Except.error e
  | Except.ok _ => checkAssignments candidatePaths subtopicTitles result.assignments

theorem checkCandidatesAssigned_ok_iff (assignedPaths : List String)
    (l : List String) :
    checkCandidatesAssigned assignedPaths l = Except.ok () ↔
      ∀ p ∈ l, p ∈ assignedPaths := by
  induction l with
  | nil => simp [checkCandidatesAssigned]
  | cons p rest ih =>
    by_cases hp : p ∈ assignedPaths
    · simp [checkCandidatesAssigned, hp, ih]
    · simp [checkCandidatesAssigned, hp]

theorem checkSubtopicsKnown_ok_iff (subtopicTitles : List String)
    (l : List String) :
    checkSubtopicsKnown subtopicTitles l = Except.ok () ↔
      ∀ s ∈ l, s ∈ subtopicTitles := by
  induction l with
  | nil => simp [checkSubtopicsKnown]
  | cons s rest ih =>
    by_cases hs : s ∈ subtopicTitles
    · simp [checkSubtopicsKnown, hs, ih]
    · simp [checkSubtopicsKnown, hs]

theorem checkAssignment_ok_iff (candidatePaths subtopicTitles : List String)
    (a : FileAssignment) :
    checkAssignment candidatePaths subtopicTitles a = Except.ok () ↔
      a.filePath ∈ candidatePaths ∧ (∀ s ∈ a.subtopics, s ∈ subtopicTitles)
        ∧ a.subtopics ≠ [] := by
  by_cases hp : a.filePath ∈ candidatePaths
  · rcases hsub : checkSubtopicsKnown subtopicTitles a.subtopics with e | u
    · simp only [checkAssignment, if_pos hp, hsub]
      have : ¬ ∀ s ∈ a.subtopics, s ∈ subtopicTitles := by
        intro hall
        rw [(checkSubtopicsKnown_ok_iff _ _).mpr hall] at hsub
        exact Except.noConfusion hsub
      simp [this]
    · have hall : ∀ s ∈ a.subtopics, s ∈ subtopicTitles :=
        (checkSubtopicsKnown_ok_iff _ _).mp (by rw [hsub])
      by_cases hlen : a.subtopics.length = 0
      · have hemp := List.length_eq_zero.mp hlen
        simp [checkAssignment, hp, hemp, checkSubtopicsKnown]
      · have hne : a.subtopics ≠ [] := fun he => hlen (by simp [he])
        simp only [checkAssignment, if_pos hp, hsub, if_neg hlen]
        simp [hp, hne]
        exact hall
  · simp [checkAssignment, hp]

theorem checkAssignments_ok_iff (candidatePaths subtopicTitles : List String)
    (l : List FileAssignment) :
    checkAssignments candidatePaths subtopicTitles l = Except.ok () ↔
      ∀ a ∈ l, checkAssignment candidatePaths subtopicTitles a = Except.ok () := by
  induction l with
  | nil => simp [checkAssignments]
  | cons a rest ih =>
    rcases h : checkAssignment candidatePaths subtopicTitles a with e | u
    · simp [checkAssignments, h]
    · simp [checkAssignments, h, ih]

theorem validateAssignmentResult_ok_iff (result : AssignmentResult)
    (domainData : DomainWithSubtopics) :
    validateAssignmentResult result domainData = Except.ok () ↔
      (∀ c ∈ domainData.candidates,
        c.path ∈ result.assignments.map (·.filePath))
      ∧ ∀ a ∈ result.assignments,
          a.filePath ∈ domainData.candidates.map (·.path)
          ∧ (∀ s ∈ a.subtopics,
              s ∈ domainData.subtopics.subtopics.map (·.title))
          ∧ a.subtopics ≠ [] := by
  unfold validateAssignmentResult
  rcases h : checkCandidatesAssigned (result.assignments.map (·.filePath))
      (domainData.candidates.map (·.path)) with e | u
  · have hnall : ¬ ∀ p ∈ domainData.candidates.map (·.path),
        p ∈ result.assignments.map (·.filePath) := by
      intro hall
      rw [(checkCandidatesAssigned_ok_iff _ _).mpr hall] at h
      exact Except.noConfusion h
    simp only [h]
    constructor
    · intro hcontra
      exact absurd hcontra Except.noConfusion
    · rintro ⟨h1, _⟩
      refine absurd (fun p hp => ?_) hnall
      obtain ⟨c, hc, rfl⟩ := List.mem_map.mp hp
      exact h1 c hc
  · have h1 : ∀ c ∈ domainData.candidates,
        c.path ∈ result.assignments.map (·.filePath) := by
      have := (checkCandidatesAssigned_ok_iff _ _).mp (by rw [h])
      intro c hc
      exact this c.path (List.mem_map_of_mem _ hc)
    simp only [h, checkAssignments_ok_iff]
    constructor
    · intro hall
      refine ⟨h1, fun a ha => ?_⟩
      exact (checkAssignment_ok_iff _ _ _).mp (hall a ha)
    · rintro ⟨_, hall⟩
      intro a ha
      exact (checkAssignment_ok_iff _ _ _).mpr (hall a ha)

/-- C2: `validateAssignmentResult` errors exactly when a candidate path is
missing from the result, a returned path is unknown, a returned subtopic
title is unknown, or a file's subtopic list is empty; and (being a pure
function of its arguments) re-validating an already-valid result never
errors. -/
theorem validateAssignmentResult_error_iff (result : AssignmentResult)
    (domainData : DomainWithSubtopics) :
    ((∃ e, validateAssignmentResult result domainData = Except.error e) ↔
      (∃ c ∈ domainData.candidates,
        c.path ∉ result.assignments.map (·.filePath))
      ∨ (∃ a ∈ result.assignments,
          a.filePath ∉ domainData.candidates.map (·.path))
      ∨ (∃ a ∈ result.assignments, ∃ s ∈ a.subtopics,
          s ∉ domainData.subtopics.subtopics.map (·.title))
      ∨ (∃ a ∈ result.assignments, a.subtopics = []))
    ∧ (validateAssignmentResult result domainData = Except.ok () →
        validateAssignmentResult result domainData = Except.ok ()) := by
  constructor
  · have herr : (∃ e, validateAssignmentResult result domainData = Except.error e) ↔
        ¬ validateAssignmentResult result domainData = Except.ok () := by
      rcases validateAssignmentResult result domainData with e | u
      · simp
      · simp
    rw [herr, validateAssignmentResult_ok_iff]
    push_neg
    constructor
    · intro h
      by_cases h1 : ∀ c ∈ domainData.candidates,
          c.path ∈ result.assignments.map (·.filePath)
      · rcases h h1 with ⟨a, ha, hbad⟩
        by_cases h2 : a.filePath ∈ domainData.candidates.map (·.path)
        · by_cases h3 : ∀ s ∈ a.subtopics,
              s ∈ domainData.subtopics.subtopics.map (·.title)
          · exact Or.inr (Or.inr (Or.inr ⟨a, ha, hbad h2 h3⟩))
          · push_neg at h3
            exact Or.inr (Or.inr (Or.inl ⟨a, ha, h3⟩))
        · exact Or.inr (Or.inl ⟨a, ha, h2⟩)
      · push_neg at h1
        exact Or.inl h1
    · rintro (⟨c, hc, hmiss⟩ | ⟨a, ha, hpath⟩ | ⟨a, ha, s, hs, htitle⟩ | ⟨a, ha, hemp⟩)
      · intro hall
        exact absurd (hall c hc) hmiss
      · exact fun _ => ⟨a, ha, fun hp _ => absurd hp hpath⟩
      · exact fun _ => ⟨a, ha, fun _ hall => absurd (hall s hs) htitle⟩
      · exact fun _ => ⟨a, ha, fun _ _ => hemp⟩
  · exact id

/-! ### Ontology persistence (`databaseOperations.ts`) -/

/-- `insertRootDomain`: the root topic row, fixed id `"root"`, depth 0,
`isRoot = true`, no parent. -/
def insertRootDomainTopic (rootDomain : DomainInfo) : Topic :=
  { id := "root", title := rootDomain.title,
    description := rootDomain.description,
    parentId := none, depth := 0, isRoot := true }

/-- `insertTopLevelDomains`: one topic per top-level domain, deterministic id
`domain-{i+1}`, depth 1, parent `rootTopicId`. -/
def insertTopLevelDomainTopics (topLevelDomains : List DomainInfo)
    (rootTopicId : String) : List Topic :=
  topLevelDomains.enum.map (fun p =>
    { id := "domain-" ++ toString (p.1 + 1), title := p.2.title,
      description := p.2.description,
      parentId := some rootTopicId, depth := 1, isRoot := false })

/-- `insertSubtopics`: for each domain index, one topic per subtopic with id
`{domainId}-sub-{j+1}`, depth 2 and the domain topic as parent. The source
indexes `topLevelTopicIds[domainIndex]`; that positional correspondence is
modelled with `zip`, which agrees with the source whenever the two lists
have the same length (the precondition of the claims that use it). -/
def insertSubtopicTopics (subtopicStructures : List SubtopicStructure)
    (topLevelTopicIds : List String) : List Topic :=
  (subtopicStructures.zip topLevelTopicIds).flatMap (fun p =>
    p.1.subtopics.enum.map (fun q =>
      { id := p.2 ++ "-sub-" ++ toString (q.1 + 1), title := q.2.title,
        description := q.2.description,
        parentId := some p.2, depth := 2, isRoot := false }))

/-- The list of topic rows inserted by `persistOntologyToDatabase`, in
insertion order: root, then the top-level domains, then the subtopics. -/
def persistedTopics (domains : DomainDiscoveryResult)
    (subtopicStructures : List SubtopicStructure) : List Topic :=
  let rootTopic := insertRootDomainTopic domains.rootDomain
  let domainTopics := insertTopLevelDomainTopics domains.topLevelDomains "root"
  let subtopicTopics :=
    insertSubtopicTopics subtopicStructures (domainTopics.map (·.id))
  rootTopic :: (domainTopics ++ subtopicTopics)

theorem mem_insertTopLevelDomainTopics {doms : List DomainInfo} {r : String}
    {t : Topic} (h : t ∈ insertTopLevelDomainTopics doms r) :
    t.isRoot = false ∧ t.depth = 1 ∧ t.parentId = some r ∧
      ∃ i, i < doms.length ∧ t.id = "domain-" ++ toString (i + 1) := by
  simp only [insertTopLevelDomainTopics, List.mem_map] at h
  obtain ⟨⟨i, d⟩, hmem, rfl⟩ := h
  have hi : i < doms.length := by
    have h2 := List.mem_enum_iff_getElem?.mp hmem
    obtain ⟨hlt, -⟩ := List.getElem?_eq_some.mp h2
    exact hlt
  exact ⟨rfl, rfl, rfl, i, hi, rfl⟩

theorem mem_insertSubtopicTopics {subs : List SubtopicStructure}
    {ids : List String} {t : Topic} (h : t ∈ insertSubtopicTopics subs ids) :
    t.isRoot = false ∧ t.depth = 2 ∧
      ∃ pid ∈ ids, t.parentId = some pid ∧
        ∃ j, t.id = pid ++ "-sub-" ++ toString (j + 1) := by
  simp only [insertSubtopicTopics, List.mem_flatMap, List.mem_map] at h
  obtain ⟨⟨s, pid⟩, hzip, ⟨j, st⟩, hj, rfl⟩ := h
  exact ⟨rfl, rfl, pid, (List.of_mem_zip hzip).2, rfl, j, rfl⟩

/-- C4: after a successful `persistOntologyToDatabase` run with one subtopic
structure per discovered top-level domain, the inserted topic rows satisfy
the hierarchy invariant: exactly one root (id `"root"`, depth 0, no parent),
domain topics `domain-{i+1}` at depth 1 under `"root"`, subtopic topics
`{domainId}-sub-{j+1}` at depth 2 under an inserted domain topic, and every
non-root topic's parent is an inserted topic whose depth is one less. -/
theorem persistedTopics_hierarchy (domains : DomainDiscoveryResult)
    (subtopicStructures : List SubtopicStructure)
    (hlen : subtopicStructures.length = domains.topLevelDomains.length) :
    (persistedTopics domains subtopicStructures).countP (·.isRoot) = 1
    ∧ (∀ t ∈ persistedTopics domains subtopicStructures, t.isRoot = true →
        t.id = "root" ∧ t.depth = 0 ∧ t.parentId = none)
    ∧ (∀ t ∈ persistedTopics domains subtopicStructures, t.depth = 1 →
        t.parentId = some "root" ∧ t.isRoot = false ∧
          ∃ i, i < domains.topLevelDomains.length ∧
            t.id = "domain-" ++ toString (i + 1))
    ∧ (∀ t ∈ persistedTopics domains subtopicStructures, t.depth = 2 →
        t.isRoot = false ∧
          ∃ p ∈ persistedTopics domains subtopicStructures, p.depth = 1 ∧
            t.parentId = some p.id ∧
            ∃ j, t.id = p.id ++ "-sub-" ++ toString (j + 1))
    ∧ (∀ t ∈ persistedTopics domains subtopicStructures, t.isRoot = false →
        ∃ p ∈ persistedTopics domains subtopicStructures,
          t.parentId = some p.id ∧ p.depth + 1 = t.depth) := by
  have hmem : ∀ {t : Topic}, t ∈ persistedTopics domains subtopicStructures ↔
      t = insertRootDomainTopic domains.rootDomain
      ∨ t ∈ insertTopLevelDomainTopics domains.topLevelDomains "root"
      ∨ t ∈ insertSubtopicTopics subtopicStructures
          ((insertTopLevelDomainTopics domains.topLevelDomains "root").map (·.id)) := by
    intro t
    simp [persistedTopics, List.mem_cons, List.mem_append]
  have hidmem : ∀ {pid : String},
      pid ∈ (insertTopLevelDomainTopics domains.topLevelDomains "root").map (·.id) →
      ∃ p ∈ insertTopLevelDomainTopics domains.topLevelDomains "root",
        p.id = pid ∧ p.depth = 1 := by
    intro pid hpid
    obtain ⟨p, hp, rfl⟩ := List.mem_map.mp hpid
    exact ⟨p, hp, rfl, (mem_insertTopLevelDomainTopics hp).2.1⟩
  refine ⟨?_, ?_, ?_, ?_, ?_⟩
  · have hd0 : (insertTopLevelDomainTopics domains.topLevelDomains "root").countP
        (·.isRoot) = 0 := by
      rw [List.countP_eq_zero]
      intro t ht
      simp [(mem_insertTopLevelDomainTopics ht).1]
    have hs0 : (insertSubtopicTopics subtopicStructures
        ((insertTopLevelDomainTopics domains.topLevelDomains "root").map (·.id))).countP
        (·.isRoot) = 0 := by
      rw [List.countP_eq_zero]
      intro t ht
      simp [(mem_insertSubtopicTopics ht).1]
    simp [persistedTopics, List.countP_cons, List.countP_append, hd0, hs0,
      insertRootDomainTopic]
  · intro t ht hroot
    rcases hmem.mp ht with rfl | h | h
    · exact ⟨rfl, rfl, rfl⟩
    · exact absurd hroot (by simp [(mem_insertTopLevelDomainTopics h).1])
    · exact absurd hroot (by simp [(mem_insertSubtopicTopics h).1])
  · intro t ht hdepth
    rcases hmem.mp ht with rfl | h | h
    · exact absurd hdepth (by simp [insertRootDomainTopic])
    · obtain ⟨h1, h2, h3, h4⟩ := mem_insertTopLevelDomainTopics h
      exact ⟨h3, h1, h4⟩
    · exact absurd hdepth (by simp [(mem_insertSubtopicTopics h).2.1])
  · intro t ht hdepth
    rcases hmem.mp ht with rfl | h | h
    · exact absurd hdepth (by simp [insertRootDomainTopic])
    · exact absurd hdepth (by simp [(mem_insertTopLevelDomainTopics h).2.1])
    · obtain ⟨h1, h2, pid, hpid, hparent, j, hid⟩ := mem_insertSubtopicTopics h
      obtain ⟨p, hp, rfl, hpdepth⟩ := hidmem hpid
      exact ⟨h1, p, hmem.mpr (Or.inr (Or.inl hp)), hpdepth,
        hparent, j, hid⟩
  · intro t ht hnroot
    rcases hmem.mp ht with rfl | h | h
    · exact absurd hnroot (by simp [insertRootDomainTopic])
    · obtain ⟨h1, h2, h3, h4⟩ := mem_insertTopLevelDomainTopics h
      refine ⟨insertRootDomainTopic domains.rootDomain,
        hmem.mpr (Or.inl rfl), ?_, ?_⟩
      · simpa [insertRootDomainTopic] using h3
      · simp [insertRootDomainTopic, h2]
    · obtain ⟨h1, h2, pid, hpid, hparent, j, hid⟩ := mem_insertSubtopicTopics h
      obtain ⟨p, hp, rfl, hpdepth⟩ := hidmem hpid
      exact ⟨p, hmem.mpr (Or.inr (Or.inl hp)), hparent, by simp [hpdepth, h2]⟩

/-! ### Retry loops (`rootDomains.ts`, `subtopicLabeler.ts`) -/

/-- The `for (attempt = 1; attempt <= maxRetries; attempt++)` retry loop of
`rootDomains.ts` / `subtopicLabeler.ts`: try `call attempt`; return the
first success; on failure warn, back off and continue; once the loop is
exhausted, throw the fixed fallback message. `remaining` is the number of
attempts left, `attempt` the 1-based attempt counter. -/
def retryLoop {α : Type} (call : Nat → Except String α)
    (failMessage : String) : Nat → Nat → Except String α
  | _, 0 => Except.error failMessage
  | attempt, remaining + 1 =>
    match call attempt with
    | Except.ok r => Except.ok r
    | Except.error _ => retryLoop call failMessage (attempt + 1) remaining

/-- `discoverRootAndTopLevelDomains` from `rootDomains.ts`, with the selected
provider's call-plus-parse modelled as the oracle `call` (attempt number ↦
outcome): `maxRetries = 3` attempts, then the post-loop
`throw new Error("Unexpected error in domain discovery")`. -/
def discoverRootAndTopLevelDomains
    (call : Nat → Except String DomainDiscoveryResult) :
    Except String DomainDiscoveryResult :=
  retryLoop call "Unexpected error in domain discovery" 1 3

/-- C6: when all 3 domain-discovery attempts fail, the function raises the
post-loop error — it never returns a domain set. -/
theorem discoverRootAndTopLevelDomains_exhausted
    (call : Nat → Except String DomainDiscoveryResult)
    (h : ∀ a, 1 ≤ a → a ≤ 3 → ∃ e, call a = Except.error e) :
    discoverRootAndTopLevelDomains call =
      Except.error "Unexpected error in domain discovery" := by
  obtain ⟨e1, h1⟩ := h 1 (by decide) (by decide)
  obtain ⟨e2, h2⟩ := h 2 (by decide) (by decide)
  obtain ⟨e3, h3⟩ := h 3 (by decide) (by decide)
  simp [discoverRootAndTopLevelDomains, retryLoop, h1, h2, h3]

/-- Witness for C6: a provider that fails every attempt makes
`discoverRootAndTopLevelDomains` raise. -/
theorem discoverRootAndTopLevelDomains_exhausted_witness :
    discoverRootAndTopLevelDomains (fun _ => Except.error "provider failure") =
      Except.error "Unexpected error in domain discovery" :=
  discoverRootAndTopLevelDomains_exhausted _
    (fun _ _ _ => ⟨"provider failure", rfl⟩)

/-! ### Subtopic labeler (`subtopicLabeler.ts`) -/

/-- The labeler's local `DomainCluster` interface: a domain plus its
candidate files (path, title, summary only). -/
structure LabelerDomainCluster where
  domain : DomainInfo
  candidates : List FileCandidate
deriving DecidableEq

/-- `prepareSubtopicContext`: the prompt text built from the domain header,
at most 30 candidate files, a `"... and N more files"` note when truncated,
and the closing instruction. -/
def prepareSubtopicContext (cluster : LabelerDomainCluster) : String :=
  let shown := cluster.candidates.take 30
  let fileLines := shown.map (fun f =>
    "• " ++ f.path ++ ": " ++ f.title ++ " - " ++ f.summary)
  let truncNote :=
    if cluster.candidates.length > 30 then
      ["... and " ++ toString (cluster.candidates.length - 30) ++ " more files"]
    else []
  String.intercalate "\n"
    (["Domain: " ++ cluster.domain.title,
      "Description: " ++ cluster.domain.description,
      "",
      "Files in this domain (" ++ toString cluster.candidates.length ++ " total):",
      ""]
      ++ fileLines ++ truncNote
      ++ ["",
        "Based on these files, identify 2-5 subtopics that would logically group them by functionality."])

/-- `generateSubtopicStructure` from `subtopicLabeler.ts`: the provider call
(OpenAI / Anthropic / Gemini, selected by config) is the oracle `call`,
taking the prepared context and the attempt number; 3 attempts with backoff,
then the post-loop `throw`. The provider's parsed JSON is returned as-is:
the source performs no client-side validation of the subtopic count. -/
def generateSubtopicStructure
    (call : String → Nat → Except String SubtopicStructure)
    (cluster : LabelerDomainCluster) : Except String SubtopicStructure :=
  let context := prepareSubtopicContext cluster
  retryLoop (call context) "Unexpected error in subtopic generation" 1 3

theorem retryLoop_ok {α : Type} (call : Nat → Except String α)
    (failMessage : String) :
    ∀ attempt remaining r,
      retryLoop call failMessage attempt remaining = Except.ok r →
      ∃ a, call a = Except.ok r := by
  intro attempt remaining
  induction remaining generalizing attempt with
  | zero =>
    intro r h
    exact absurd h (by simp [retryLoop])
  | succ k ih =>
    intro r h
    rcases hc : call attempt with e | v
    · exact ih (attempt + 1) r (by simpa [retryLoop, hc] using h)
    · refine ⟨attempt, ?_⟩
      rw [hc]
      simpa [retryLoop, hc] using h

/-- A demonstration cluster for the subtopic labeler. -/
def demoLabelerCluster : LabelerDomainCluster :=
  ⟨⟨"Authentication", "Login and identity management"⟩,
    [⟨"src/auth/login.ts", "Login", "Handles user login"⟩]⟩

/-- A provider response with a single subtopic: it violates the declared
2–10 bound, and the Gemini response schema does not even declare that
bound. -/
def singleSubtopicStructure : SubtopicStructure :=
  { subtopics := [{ title := "General", description := "Catch-all subtopic" }] }

/-- A provider response with two subtopics (satisfies the declared bound). -/
def twoSubtopicStructure : SubtopicStructure :=
  { subtopics :=
      [{ title := "Login", description := "Login flows" },
        { title := "Registration", description := "Account creation" }] }

/-- Counterexample for C8: `generateSubtopicStructure` passes a provider
response through without validating the subtopic count, so a response with
a single subtopic is returned although the claim requires 2–10. -/
theorem generateSubtopicStructure_count_cex :
    generateSubtopicStructure (fun _ _ => Except.ok singleSubtopicStructure)
        demoLabelerCluster = Except.ok singleSubtopicStructure
      ∧ singleSubtopicStructure.subtopics.length < 2 :=
  ⟨rfl, by decide⟩

/-- C8 as amended: if every successful provider response conforms to the
declared `SUBTOPIC_STRUCTURE_SCHEMA` item bound (2–10 subtopics), then the
structure returned by `generateSubtopicStructure` has 2–10 subtopics; the
code itself enforces nothing. -/
theorem generateSubtopicStructure_count_of_schema
    (call : String → Nat → Except String SubtopicStructure)
    (cluster : LabelerDomainCluster) (s : SubtopicStructure)
    (hschema : ∀ ctx a s', call ctx a = Except.ok s' →
      2 ≤ s'.subtopics.length ∧ s'.subtopics.length ≤ 10)
    (h : generateSubtopicStructure call cluster = Except.ok s) :
    2 ≤ s.subtopics.length ∧ s.subtopics.length ≤ 10 := by
  obtain ⟨a, ha⟩ := retryLoop_ok _ _ _ _ _ h
  exact hschema _ a s ha

/-- Witness for the amended C8 at a concrete schema-conforming provider. -/
theorem generateSubtopicStructure_count_of_schema_witness :
    2 ≤ twoSubtopicStructure.subtopics.length
      ∧ twoSubtopicStructure.subtopics.length ≤ 10 :=
  generateSubtopicStructure_count_of_schema
    (fun _ _ => Except.ok twoSubtopicStructure) demoLabelerCluster
    twoSubtopicStructure
    (by
      intro ctx a s' h
      simp only [Except.ok.injEq] at h
      subst h
      decide)
    rfl

/-! ### Ontology orchestrator result types (`OntologyService`) -/

/-- `OntologyPersistenceResult` from `databaseOperations.ts`. -/
structure OntologyPersistenceResult where
  rootTopicId : String
  topicCount : Nat
  linkCount : Nat
  coveragePercentage : ℤ

/-- Per-phase wall-clock durations in milliseconds (`timing` field of
`OntologyBuildResult`). Sampled from `Date.now()` in the source; modelled
as real-valued oracle data. -/
structure OntologyTiming where
  embeddingTime : ℝ
  domainDiscoveryTime : ℝ
  clusteringTime : ℝ
  subtopicTime : ℝ
  assignmentTime : ℝ
  persistenceTime : ℝ
  totalTime : ℝ

/-- `quality` field of `OntologyBuildResult` (`analyzeClusterQuality`'s
return type). -/
structure OntologyQuality where
  avgIntraClusterSimilarity : ℝ
  coveragePercentage : ℤ
  clusterSizes : List Nat

/-- `OntologyBuildResult` from `OntologyService`. -/
structure OntologyBuildResult where
  persistence : OntologyPersistenceResult
  timing : OntologyTiming
  quality : OntologyQuality
  llmCallCount : Nat

/-- The `{passed, issues}` record returned by `validateOntologyResults`. -/
structure ValidationOutcome where
  passed : Bool
  issues : List String

/-! ### Validation gate (`OntologyService`, `validateOntologyResults`) -/

/-- `validateOntologyResults` from the orchestrator: all four rules are
checked in order, each violated rule pushes one issue string, and
`passed := issues.length === 0`. The numeric payload of the similarity
message (`toFixed(3)`) has no counterpart for `ℝ` and is left out of the
message text; the other payloads are rendered with `toString`. -/
noncomputable def validateOntologyResults (result : OntologyBuildResult) :
    ValidationOutcome :=
  let issues : List String :=
    (if result.persistence.coveragePercentage < 100 then
      ["Coverage below 100%: " ++ toString result.persistence.coveragePercentage ++ "%"]
    else [])
    ++ (if result.timing.totalTime > 30 * 60 * 1000 then
      ["Total time exceeds 30 minutes: "
        ++ toString (round (result.timing.totalTime / 1000) : ℤ) ++ "s"]
    else [])
    ++ (if result.llmCallCount > 100 then
      ["LLM calls exceed 100: " ++ toString result.llmCallCount]
    else [])
    ++ (if result.quality.avgIntraClusterSimilarity < 0.1 then
      ["Low cluster similarity"]
    else [])
  { passed := issues.length == 0, issues := issues }

/-- Modelled from the spec: the number of violated acceptance rules
(coverage < 100%, duration > 30 minutes, > 100 LLM calls, average
intra-cluster similarity < 0.1), for comparison with the issue list the
code accumulates. -/
noncomputable def specViolationCount (result : OntologyBuildResult) : Nat :=
  (if result.persistence.coveragePercentage < 100 then 1 else 0)
  + (if result.timing.totalTime > 30 * 60 * 1000 then 1 else 0)
  + (if result.llmCallCount > 100 then 1 else 0)
  + (if result.quality.avgIntraClusterSimilarity < 0.1 then 1 else 0)

/-- The concrete result of the C5 scenario: coverage 80%, 120 LLM calls,
average similarity 0.05, total time within budget. -/
noncomputable def demoFailingResult : OntologyBuildResult :=
  { persistence :=
      { rootTopicId := "root", topicCount := 6, linkCount := 4,
        coveragePercentage := 80 },
    timing :=
      { embeddingTime := 0, domainDiscoveryTime := 0, clusteringTime := 0,
        subtopicTime := 0, assignmentTime := 0, persistenceTime := 0,
        totalTime := 0 },
    quality :=
      { avgIntraClusterSimilarity := 0.05, coveragePercentage := 80,
        clusterSizes := [2, 2] },
    llmCallCount := 120 }

/-- C5: the validation gate accumulates one issue string per violated rule
without short-circuiting (`issues.length` equals the number of violated
rules), `passed` holds exactly when no issue was accumulated, and on the
scenario result (coverage 80, 120 calls, similarity 0.05, time in budget)
it returns `passed = false` with exactly 3 issues. -/
theorem validateOntologyResults_accumulates (result : OntologyBuildResult) :
    ((validateOntologyResults result).passed = true ↔
      (validateOntologyResults result).issues = [])
    ∧ (validateOntologyResults result).issues.length = specViolationCount result
    ∧ (validateOntologyResults demoFailingResult).passed = false
    ∧ (validateOntologyResults demoFailingResult).issues.length = 3 := by
  refine ⟨?_, ?_, ?_, ?_⟩
  · simp [validateOntologyResults, List.length_eq_zero]
  · by_cases h1 : result.persistence.coveragePercentage < 100 <;>
      by_cases h2 : result.timing.totalTime > 30 * 60 * 1000 <;>
      by_cases h3 : result.llmCallCount > 100 <;>
      by_cases h4 : result.quality.avgIntraClusterSimilarity < 0.1 <;>
      simp [validateOntologyResults, specViolationCount, h1, h2, h3, h4]
  · have h1 : (80 : ℤ) < 100 := by norm_num
    have h2 : ¬ ((0 : ℝ) > 30 * 60 * 1000) := by norm_num
    have h3 : (120 : Nat) > 100 := by norm_num
    have h4 : (0.05 : ℝ) < 0.1 := by norm_num
    simp [validateOntologyResults, demoFailingResult, h1, h2, h3, h4]
  · have h1 : (80 : ℤ) < 100 := by norm_num
    have h2 : ¬ ((0 : ℝ) > 30 * 60 * 1000) := by norm_num
    have h3 : (120 : Nat) > 100 := by norm_num
    have h4 : (0.05 : ℝ) < 0.1 := by norm_num
    simp [validateOntologyResults, demoFailingResult, h1, h2, h3, h4]

/-! ### Export (`OntologyService`, `exportOntologyStructure`) -/

/-- The `stats` record computed by `queryOntologyStructure` (`maxDepth`,
a float `-Infinity` on an empty store, is unused by the export validation
and omitted). -/
structure OntologyStructureStats where
  totalTopics : Nat
  totalLinks : Nat

/-- The queried structure returned by `queryOntologyStructure`. -/
structure QueriedOntologyStructure where
  topics : List Topic
  links : List TopicNodeLink
  stats : OntologyStructureStats

/-- `queryOntologyStructure` on a successfully opened store: all topics,
all links, and the derived stats. -/
def queryOntologyStructure (topics : List Topic)
    (links : List TopicNodeLink) : QueriedOntologyStructure :=
  { topics := topics, links := links,
    stats := { totalTopics := topics.length, totalLinks := links.length } }

/-- `exportOntologyStructure` on a store that can be queried successfully:
the validation is computed from a hard-coded mock result (coverage 100,
all timings 0, 0 LLM calls, similarity 0.5), not from the stored data. -/
noncomputable def exportOntologyStructure (topics : List Topic)
    (links : List TopicNodeLink) :
    QueriedOntologyStructure × ValidationOutcome :=
  let structureData := queryOntologyStructure topics links
  let mockResult : OntologyBuildResult :=
    { persistence :=
        { rootTopicId := "root",
          topicCount := structureData.stats.totalTopics,
          linkCount := structureData.stats.totalLinks,
          coveragePercentage := 100 },
      timing :=
        { embeddingTime := 0, domainDiscoveryTime := 0, clusteringTime := 0,
          subtopicTime := 0, assignmentTime := 0, persistenceTime := 0,
          totalTime := 0 },
      quality :=
        { avgIntraClusterSimilarity := 0.5, coveragePercentage := 100,
          clusterSizes := [] },
      llmCallCount := 0 }
  (structureData, validateOntologyResults mockResult)

/-- C10: whatever topics and links are persisted, the exported validation is
computed from the hard-coded mock result and always reports
`passed = true` with no issues. -/
theorem exportOntologyStructure_validation_trivial (topics : List Topic)
    (links : List TopicNodeLink) :
    (exportOntologyStructure topics links).2.passed = true
    ∧ (exportOntologyStructure topics links).2.issues = [] := by
  have h1 : ¬ ((100 : ℤ) < 100) := by norm_num
  have h2 : ¬ ((0 : ℝ) > 30 * 60 * 1000) := by norm_num
  have h3 : ¬ ((0 : Nat) > 100) := by norm_num
  have h4 : ¬ ((0.5 : ℝ) < 0.1) := by norm_num
  constructor <;>
    simp [exportOntologyStructure, queryOntologyStructure,
      validateOntologyResults, h1, h2, h3, h4]

/-! ### Vector storage (`sqliteIndex.ts`, `VectorStorageService`) -/

/-- The running sum `magnitude += vector[i] * vector[i]` computed by
`normalizeVector` before the square root: the squared L2 norm. -/
def sumSq (v : List ℝ) : ℝ := (v.map fun x => x * x).sum

/-- The L2 norm of a vector. -/
noncomputable def l2Norm (v : List ℝ) : ℝ := Real.sqrt (sumSq v)

/-- `normalizeVector` from `VectorStorageService`: divide each component by
the magnitude; a zero-magnitude vector is returned as-is
(`if (magnitude === 0) return vector`). -/
noncomputable def normalizeVector (vector : List ℝ) : List ℝ :=
  let magnitude := Real.sqrt (sumSq vector)
  if magnitude = 0 then vector
  else vector.map (fun x => x / magnitude)

/-- A row of the `embeddings` table as written by `saveEmbedding` (the
Float32 buffer serialization is modelled as the list of components). -/
structure StoredEmbedding where
  id : String
  nodeId : String
  model : String
  dim : Nat
  vector : List ℝ

/-- `VectorStorageService.saveEmbedding`: normalizes the vector and upserts
the row keyed by `nodeId`. -/
noncomputable def saveEmbedding (nodeId : String) (vector : List ℝ)
    (model : String) : StoredEmbedding :=
  let normalized := normalizeVector vector
  { id := nodeId, nodeId := nodeId, model := model,
    dim := normalized.length, vector := normalized }

theorem sumSq_nonneg (v : List ℝ) : 0 ≤ sumSq v := by
  refine List.sum_nonneg ?_
  intro x hx
  obtain ⟨y, -, rfl⟩ := List.mem_map.mp hx
  exact mul_self_nonneg y

theorem sumSq_map_div (v : List ℝ) (m : ℝ) :
    sumSq (v.map (fun x => x / m)) = sumSq v / (m * m) := by
  induction v with
  | nil => simp [sumSq]
  | cons x rest ih =>
    simp only [sumSq, List.map_cons, List.sum_cons] at ih ⊢
    rw [ih, div_mul_div_comm, div_add_div_same]

/-- Counterexample for C7: `saveEmbedding` stores the zero vector exactly
as passed (its L2 norm is 0, not 1): `normalizeVector` returns a
zero-magnitude vector unchanged. -/
theorem saveEmbedding_zero_vector_cex :
    (saveEmbedding "node" [(0 : ℝ)] "model").vector = [(0 : ℝ)]
    ∧ l2Norm ((saveEmbedding "node" [(0 : ℝ)] "model").vector) ≠ 1 := by
  have h0 : sumSq [(0 : ℝ)] = 0 := by simp [sumSq]
  have hnorm : normalizeVector [(0 : ℝ)] = [(0 : ℝ)] := by
    simp [normalizeVector, h0]
  refine ⟨by simp [saveEmbedding, hnorm], ?_⟩
  simp [saveEmbedding, hnorm, l2Norm, h0]

/-- C7 as amended: every vector with nonzero squared magnitude is stored
with L2 norm exactly 1; only the zero vector is stored unchanged. -/
theorem saveEmbedding_stores_unit_vector (nodeId : String) (vector : List ℝ)
    (model : String) (h : sumSq vector ≠ 0) :
    l2Norm ((saveEmbedding nodeId vector model).vector) = 1 := by
  have hnn := sumSq_nonneg vector
  have hpos : 0 < sumSq vector := lt_of_le_of_ne hnn (Ne.symm h)
  have hm : Real.sqrt (sumSq vector) ≠ 0 :=
    ne_of_gt (Real.sqrt_pos.mpr hpos)
  simp only [saveEmbedding, normalizeVector, if_neg hm]
  unfold l2Norm
  rw [sumSq_map_div, Real.mul_self_sqrt hnn, div_self h, Real.sqrt_one]

/-- Witness for the amended C7 at the concrete vector `[3, 4]`. -/
theorem saveEmbedding_stores_unit_vector_witness :
    l2Norm ((saveEmbedding "node" [(3 : ℝ), 4] "model").vector) = 1 :=
  saveEmbedding_stores_unit_vector "node" [(3 : ℝ), 4] "model"
    (by simp [sumSq]; norm_num)

/-! ### Structure generator (`structureGenerator.ts`) -/

/-- A file context (`{id, path, title, summary}`) as passed to
`generateStructureForDomains`. -/
structure FileContext where
  id : String
  path : String
  title : String
  summary : String
deriving DecidableEq

/-- `FileWithEmbedding`: a file context spread together with its embedding
vector. -/
structure FileWithEmbedding where
  id : String
  path : String
  title : String
  summary : String
  embedding : List ℝ

/-- `DomainCluster` as produced by the structure generator. -/
structure DomainCluster where
  domain : DomainInfo
  candidates : List FileWithEmbedding
  similarity_threshold : ℝ

/-- `cosineSimilarity` from `structureGenerator.ts`. The source throws when
the vector lengths differ; this total model computes the dot product over
the componentwise pairs (`zip`) and agrees with the source on equal-length
vectors — the only case the pipeline produces and the case the coverage
theorem's dimension hypothesis confines it to. A zero-norm operand yields
similarity 0 exactly as in the source. -/
noncomputable def cosineSimilarity (a b : List ℝ) : ℝ :=
  let dotProduct := ((a.zip b).map (fun p => p.1 * p.2)).sum
  let normA := (a.map (fun x => x * x)).sum
  let normB := (b.map (fun x => x * x)).sum
  if normA = 0 ∨ normB = 0 then 0
  else dotProduct / (Real.sqrt normA * Real.sqrt normB)

/-- `generateFileEmbeddings`: one embedding per file over the composite
text `` title ++ ": " ++ summary ``. The source batches requests in groups
of 10 with a result barrier, which preserves input order, so the whole
phase is order-preserving `map`; the gateway (with its memoizing cache) is
the oracle `embed`. -/
def generateFileEmbeddings (embed : String → List ℝ)
    (files : List FileContext) : List FileWithEmbedding :=
  files.map (fun f =>
    { id := f.id, path := f.path, title := f.title, summary := f.summary,
      embedding := embed (f.title ++ ": " ++ f.summary) })

/-- `generateDomainEmbeddings`: one embedding per domain over
`` title ++ ": " ++ description ``. -/
def generateDomainEmbeddings (embed : String → List ℝ)
    (domains : List DomainInfo) : List (List ℝ) :=
  domains.map (fun d => embed (d.title ++ ": " ++ d.description))

/-- `findSimilarFiles`: keep every file whose cosine similarity to the
domain embedding reaches the threshold, sorted descending by similarity
(the JS comparator `b.similarity - a.similarity`). -/
noncomputable def findSimilarFiles (files : List FileWithEmbedding)
    (domainEmbedding : List ℝ) (threshold : ℝ) : List FileWithEmbedding :=
  let similarities := files.map (fun file =>
    (file, cosineSimilarity file.embedding domainEmbedding))
  (((similarities.filter (fun p => decide (threshold ≤ p.2))).mergeSort
    (fun p q => decide (q.2 ≤ p.2))).map (fun p => p.1))

/-- The loop of `assignUnassignedFiles` that scans all domain embeddings
for the highest similarity: `best` starts at index 0 with similarity −1 and
is replaced whenever a strictly greater similarity is found; `i` is the
current index. -/
noncomputable def bestClusterIndexAux (v : List ℝ) :
    List (List ℝ) → Nat → Nat × ℝ → Nat × ℝ
  | [], _, best => best
  | d :: rest, i, best =>
    let sim := cosineSimilarity v d
    bestClusterIndexAux v rest (i + 1) (if best.2 < sim then (i, sim) else best)

/-- The index of the domain with the highest cosine similarity to `file`. -/
noncomputable def bestClusterIndex (file : FileWithEmbedding)
    (domainEmbeddings : List (List ℝ)) : Nat :=
  (bestClusterIndexAux file.embedding domainEmbeddings 0 (0, -1)).1

/-- `clusters[i].candidates.push(file)`: append `file` to the candidate
list of the cluster at index `i` (the source never reaches an out-of-range
index here because the domain list is non-empty). -/
def pushCandidate (clusters : List DomainCluster) (i : Nat)
    (file : FileWithEmbedding) : List DomainCluster :=
  match clusters[i]? with
  | none => clusters
  | some c => clusters.set i { c with candidates := c.candidates ++ [file] }

/-- `assignUnassignedFiles`: each file selected by no domain is pushed onto
the candidate list of its best-matching cluster, threshold ignored. -/
noncomputable def assignUnassignedFiles
    (unassignedFiles : List FileWithEmbedding)
    (clusters : List DomainCluster)
    (domainEmbeddings : List (List ℝ)) : List DomainCluster :=
  unassignedFiles.foldl
    (fun cls file =>
      pushCandidate cls (bestClusterIndex file domainEmbeddings) file)
    clusters

/-- The per-domain loop of `generateStructureForDomains` that pairs each
domain with its embedding and selects candidates by the 0.3 threshold. -/
noncomputable def thresholdClusters (fwe : List FileWithEmbedding)
    (domains : List DomainInfo) (des : List (List ℝ)) : List DomainCluster :=
  (domains.zip des).map (fun p =>
    { domain := p.1,
      candidates := findSimilarFiles fwe p.2 0.3,
      similarity_threshold := (0.3 : ℝ) })

/-- `generateStructureForDomains` from `structureGenerator.ts`: embed all
files and all domains, select per-domain candidates by the 0.3 cosine
threshold, then force-assign every unselected file to its best-matching
domain. -/
noncomputable def generateStructureForDomains (embed : String → List ℝ)
    (files : List FileContext) (domains : DomainDiscoveryResult) :
    List DomainCluster :=
  let filesWithEmbeddings := generateFileEmbeddings embed files
  let domainEmbeddings := generateDomainEmbeddings embed domains.topLevelDomains
  let clusters :=
    thresholdClusters filesWithEmbeddings domains.topLevelDomains domainEmbeddings
  let assignedFileIds := clusters.flatMap (fun c => c.candidates.map (·.id))
  let unassignedFiles := filesWithEmbeddings.filter
    (fun f => !(assignedFileIds.contains f.id))
  assignUnassignedFiles unassignedFiles clusters domainEmbeddings

/-- The sum of the pairwise similarities of the nested
`for i, for j > i` loops of `analyzeClusterQuality`, within one cluster. -/
noncomputable def pairwiseSimSum : List FileWithEmbedding → ℝ
  | [] => 0
  | c :: rest =>
    (rest.map (fun d => cosineSimilarity c.embedding d.embedding)).sum
      + pairwiseSimSum rest

/-- `analyzeClusterQuality`: average pairwise intra-cluster similarity over
all unordered pairs (clusters of size < 2 contribute no pairs), the fixed
100% coverage, and the cluster sizes. -/
noncomputable def analyzeClusterQuality (clusters : List DomainCluster) :
    OntologyQuality :=
  let clusterSizes := clusters.map (fun c => c.candidates.length)
  let totalSimilarity : ℝ :=
    (clusters.map (fun c => pairwiseSimSum c.candidates)).sum
  let totalPairs : Nat :=
    (clusters.map (fun c =>
      c.candidates.length * (c.candidates.length - 1) / 2)).sum
  { avgIntraClusterSimilarity :=
      if 0 < totalPairs then totalSimilarity / (totalPairs : ℝ) else 0,
    coveragePercentage := 100,
    clusterSizes := clusterSizes }

theorem pushCandidate_length (clusters : List DomainCluster) (i : Nat)
    (file : FileWithEmbedding) :
    (pushCandidate clusters i file).length = clusters.length := by
  rcases h : clusters[i]? with _ | c <;> simp [pushCandidate, h]

/-- Positional monotonicity of candidate lists: every candidate present at
position `j` stays at position `j`. -/
def candidatesGrow (cls cls' : List DomainCluster) : Prop :=
  cls.length = cls'.length ∧
    ∀ j (h : j < cls.length) (h' : j < cls'.length) f,
      f ∈ (cls.get ⟨j, h⟩).candidates → f ∈ (cls'.get ⟨j, h'⟩).candidates

theorem candidatesGrow_refl (cls : List DomainCluster) :
    candidatesGrow cls cls :=
  ⟨rfl, fun _ _ _ _ h => h⟩

theorem candidatesGrow_trans {c1 c2 c3 : List DomainCluster}
    (h12 : candidatesGrow c1 c2) (h23 : candidatesGrow c2 c3) :
    candidatesGrow c1 c3 := by
  obtain ⟨hl12, hs12⟩ := h12
  obtain ⟨hl23, hs23⟩ := h23
  refine ⟨hl12.trans hl23, ?_⟩
  intro j h h' f hf
  exact hs23 j (hl12 ▸ h) h' f (hs12 j h (hl12 ▸ h) f hf)

theorem pushCandidate_grows (cls : List DomainCluster) (i : Nat)
    (file : FileWithEmbedding) :
    candidatesGrow cls (pushCandidate cls i file) := by
  refine ⟨(pushCandidate_length cls i file).symm, ?_⟩
  intro j h h' f hf
  rcases hq : cls[i]? with _ | c
  · have hpc : pushCandidate cls i file = cls := by
      simp [pushCandidate, hq]
    simpa [hpc] using hf
  · have hpc : pushCandidate cls i file
        = cls.set i
            { domain := c.domain
              candidates := c.candidates ++ [file]
              similarity_threshold := c.similarity_threshold } := by
      simp [pushCandidate, hq]
    by_cases hij : i = j
    · subst hij
      have hc : cls.get ⟨i, h⟩ = c := by
        have h2 := (List.getElem?_eq_some.mp hq).2
        simpa [List.get_eq_getElem] using h2
      simp only [hpc, List.get_eq_getElem, List.getElem_set, if_pos rfl]
      rw [hc] at hf
      exact List.mem_append_left _ hf
    · simp only [hpc, List.get_eq_getElem, List.getElem_set, if_neg hij]
      simpa [List.get_eq_getElem] using hf

theorem assignUnassignedFiles_grows (des : List (List ℝ)) :
    ∀ (us : List FileWithEmbedding) (cls : List DomainCluster),
      candidatesGrow cls (assignUnassignedFiles us cls des) := by
  intro us
  induction us with
  | nil => intro cls; exact candidatesGrow_refl cls
  | cons u rest ih =>
    intro cls
    exact candidatesGrow_trans
      (pushCandidate_grows cls (bestClusterIndex u des) u)
      (ih (pushCandidate cls (bestClusterIndex u des) u))

theorem bestClusterIndexAux_lt (v : List ℝ) (n : Nat) :
    ∀ (l : List (List ℝ)) (i : Nat) (best : Nat × ℝ),
      best.1 < n → i + l.length ≤ n →
      (bestClusterIndexAux v l i best).1 < n := by
  intro l
  induction l with
  | nil =>
    intro i best hb _
    simpa [bestClusterIndexAux] using hb
  | cons d rest ih =>
    intro i best hb hlen
    simp only [bestClusterIndexAux]
    simp only [List.length_cons] at hlen
    refine ih (i + 1) _ ?_ (by omega)
    by_cases hc : best.2 < cosineSimilarity v d
    · simp only [if_pos hc]
      omega
    · simpa [if_neg hc] using hb

theorem bestClusterIndex_lt (file : FileWithEmbedding)
    (des : List (List ℝ)) (h : des ≠ []) :
    bestClusterIndex file des < des.length :=
  bestClusterIndexAux_lt file.embedding des.length des 0 (0, -1)
    (List.length_pos.mpr h) (by omega)

theorem pushCandidate_places (cls : List DomainCluster) (i : Nat)
    (file : FileWithEmbedding) (h : i < cls.length) :
    ∃ h' : i < (pushCandidate cls i file).length,
      file ∈ ((pushCandidate cls i file).get ⟨i, h'⟩).candidates := by
  have hsome : cls[i]? = some (cls.get ⟨i, h⟩) := by
    simp [List.getElem?_eq_getElem h, List.get_eq_getElem]
  have hpc : pushCandidate cls i file
      = cls.set i
          { domain := (cls.get ⟨i, h⟩).domain
            candidates := (cls.get ⟨i, h⟩).candidates ++ [file]
            similarity_threshold := (cls.get ⟨i, h⟩).similarity_threshold } := by
    simp [pushCandidate, hsome]
  refine ⟨by simpa [pushCandidate_length] using h, ?_⟩
  simp [hpc, List.get_eq_getElem, List.getElem_set]

/-- `fid` occurs among the candidate ids of some cluster of `cls`. -/
def hasCandidateId (cls : List DomainCluster) (fid : String) : Prop :=
  ∃ j, ∃ h : j < cls.length,
    fid ∈ (cls.get ⟨j, h⟩).candidates.map (·.id)

theorem hasCandidateId_of_grow {cls cls' : List DomainCluster} {fid : String}
    (hg : candidatesGrow cls cls') (h : hasCandidateId cls fid) :
    hasCandidateId cls' fid := by
  obtain ⟨j, hj, hmem⟩ := h
  obtain ⟨hlen, hsub⟩ := hg
  obtain ⟨f, hf, rfl⟩ := List.mem_map.mp hmem
  exact ⟨j, hlen ▸ hj, List.mem_map_of_mem _ (hsub j hj (hlen ▸ hj) f hf)⟩

theorem hasCandidateId_iff (cls : List DomainCluster) (fid : String) :
    hasCandidateId cls fid ↔ ∃ c ∈ cls, fid ∈ c.candidates.map (·.id) := by
  constructor
  · rintro ⟨j, h, hmem⟩
    exact ⟨cls.get ⟨j, h⟩, List.get_mem cls j h, hmem⟩
  · rintro ⟨c, hc, hmem⟩
    obtain ⟨j, h, rfl⟩ := List.mem_iff_getElem.mp hc
    exact ⟨j, h, by simpa [List.get_eq_getElem] using hmem⟩

theorem assignUnassignedFiles_covers (des : List (List ℝ)) (hdes : des ≠ []) :
    ∀ (us : List FileWithEmbedding) (cls : List DomainCluster),
      cls.length = des.length → ∀ u ∈ us,
      hasCandidateId (assignUnassignedFiles us cls des) u.id := by
  intro us
  induction us with
  | nil =>
    intro cls _ u hu
    cases hu
  | cons u0 rest ih =>
    intro cls hlen u hu
    have hstep : assignUnassignedFiles (u0 :: rest) cls des
        = assignUnassignedFiles rest
            (pushCandidate cls (bestClusterIndex u0 des) u0) des := rfl
    rcases List.mem_cons.mp hu with rfl | hu
    · have hb : bestClusterIndex u des < cls.length :=
        hlen ▸ bestClusterIndex_lt u des hdes
      obtain ⟨h', hmem⟩ := pushCandidate_places cls _ u hb
      rw [hstep]
      exact hasCandidateId_of_grow
        (assignUnassignedFiles_grows des rest _)
        ⟨_, h', List.mem_map_of_mem _ hmem⟩
    · rw [hstep]
      exact ih _ (by rw [pushCandidate_length]; exact hlen) u hu

theorem coverage_core (fwe : List FileWithEmbedding)
    (clusters : List DomainCluster) (des : List (List ℝ))
    (assignedIds : List String)
    (hassigned : assignedIds = clusters.flatMap (fun c => c.candidates.map (·.id)))
    (hlen : clusters.length = des.length) (hdes : des ≠ [])
    (fid : String) (hf : ∃ fE ∈ fwe, fE.id = fid) :
    hasCandidateId
      (assignUnassignedFiles
        (fwe.filter (fun f => !(assignedIds.contains f.id))) clusters des)
      fid := by
  by_cases hass : fid ∈ assignedIds
  · subst hassigned
    obtain ⟨c, hc, hcand⟩ := List.mem_flatMap.mp hass
    exact hasCandidateId_of_grow (assignUnassignedFiles_grows des _ clusters)
      ((hasCandidateId_iff clusters fid).mpr ⟨c, hc, hcand⟩)
  · obtain ⟨fE, hfE, rfl⟩ := hf
    have hfilter : fE ∈ fwe.filter (fun f => !(assignedIds.contains f.id)) := by
      rw [List.mem_filter]
      exact ⟨hfE, by simpa [List.elem_iff] using hass⟩
    exact assignUnassignedFiles_covers des hdes _ clusters hlen fE hfilter

/-- C1: for a non-empty file list and a non-empty discovered domain list
(under the fixed embedding oracle, with all embedding vectors of one
dimension so the source's length check cannot throw), the clusters returned
by `generateStructureForDomains` cover every input file id: files below the
0.3 threshold everywhere are force-assigned to their single best-matching
domain. -/
theorem generateStructureForDomains_coverage
    (embed : String → List ℝ) (files : List FileContext)
    (domains : DomainDiscoveryResult)
    (hfiles : files ≠ []) (hdoms : domains.topLevelDomains ≠ [])
    (hdim : ∃ d,
      (∀ f ∈ files, (embed (f.title ++ ": " ++ f.summary)).length = d)
      ∧ ∀ dm ∈ domains.topLevelDomains,
          (embed (dm.title ++ ": " ++ dm.description)).length = d) :
    ∀ f ∈ files, ∃ c ∈ generateStructureForDomains embed files domains,
      f.id ∈ c.candidates.map (·.id) := by
  intro f hf
  have hdes : generateDomainEmbeddings embed domains.topLevelDomains ≠ [] := by
    simp [generateDomainEmbeddings, hdoms]
  have hlen :
      (thresholdClusters (generateFileEmbeddings embed files)
          domains.topLevelDomains
          (generateDomainEmbeddings embed domains.topLevelDomains)).length
        = (generateDomainEmbeddings embed domains.topLevelDomains).length := by
    simp [thresholdClusters, generateDomainEmbeddings]
  have hfE : ∃ fE ∈ generateFileEmbeddings embed files, fE.id = f.id := by
    refine ⟨_, List.mem_map_of_mem _ hf, rfl⟩
  have := coverage_core (generateFileEmbeddings embed files) _
    (generateDomainEmbeddings embed domains.topLevelDomains) _ rfl hlen hdes
    f.id hfE
  rw [generateStructureForDomains]
  exact (hasCandidateId_iff _ _).mp this

/-! ### Orchestrator (`OntologyService`, `buildOntology`) -/

/-- The `summary` object of a file record. -/
structure FileSummary where
  title : String
  summary : String
  loc : Nat
deriving DecidableEq

/-- `FileRecord` consumed by the orchestrator. -/
structure FileRecord where
  id : String
  path : String
  name : String
  summary : FileSummary
deriving DecidableEq

/-- `DirectoryRecord` consumed by the orchestrator. -/
structure DirectoryRecord where
  id : String
  path : String
  summary : String
  fileCount : Nat
  loc : Nat
deriving DecidableEq

/-- `DirectoryContext` passed to domain discovery. -/
structure DirectoryContext where
  id : String
  path : String
  summary : String
  fileCount : Nat
  loc : Nat
deriving DecidableEq

/-- The `fileContexts` mapping at the start of `buildOntology`. -/
def fileContextsOf (fileRecords : List FileRecord) : List FileContext :=
  fileRecords.map (fun f =>
    { id := f.id, path := f.path, title := f.summary.title,
      summary := f.summary.summary })

/-- The `directoryContexts` mapping at the start of `buildOntology`. -/
def directoryContextsOf (directoryRecords : List DirectoryRecord) :
    List DirectoryContext :=
  directoryRecords.map (fun d =>
    { id := d.id, path := d.path, summary := d.summary,
      fileCount := d.fileCount, loc := d.loc })

/-- `fileIds.get(path)` on the `Map` built by inserting `(path, id)` pairs
in order: the most recent binding wins. -/
def lookupFileId (fileIds : List (String × String)) (path : String) :
    Option String :=
  (fileIds.reverse.find? (fun p => p.1 == path)).map (·.2)

/-- `createSubtopicTitleMapping` queried on the inserted subtopic topics:
`mapping.set(title, id)` in insertion order, so the last topic with a given
title wins. -/
def subtopicTitleToId (subtopicTopics : List Topic) (title : String) :
    Option String :=
  (subtopicTopics.reverse.find? (fun t => t.title == title)).map (·.id)

/-- The `UNIQUE(topic_id, node_id, node_type)` constraint check against the
links inserted so far in this run (the store is cleared first). -/
def linkExists (links : List TopicNodeLink)
    (topicId nodeId nodeType : String) : Bool :=
  links.any (fun l =>
    l.topicId == topicId && l.nodeId == nodeId && l.nodeType == nodeType)

/-- `insertTopicNodeLinks`: for every assignment, resolve file path → file
id and subtopic title → topic id (skipping with a warning when either is
missing), then insert the link unless the uniqueness constraint rejects it
(duplicates are swallowed silently). Returns the inserted links; the
source's `linkCount` is their number. -/
def insertTopicNodeLinks (assignments : List AssignmentResult)
    (subtopicTopics : List Topic) (fileIds : List (String × String)) :
    List TopicNodeLink :=
  assignments.foldl (fun links ar =>
    ar.assignments.foldl (fun links a =>
      match lookupFileId fileIds a.filePath with
      | none => links
      | some fileId =>
        a.subtopics.foldl (fun links st =>
          match subtopicTitleToId subtopicTopics st with
          | none => links
          | some topicId =>
            if linkExists links topicId fileId "file" then links
            else links ++
              [{ id := "link-" ++ topicId ++ "-" ++ fileId,
                  topicId := topicId, nodeId := fileId,
                  nodeType := "file", confidence := 100 }]) links) links) []

/-- `persistOntologyToDatabase` (pure view of the transaction): clear, insert
root/domains/subtopics, insert links, and report counts and coverage
(`fileIds.size` is the number of distinct paths in the map). -/
def persistOntologyToDatabase (domains : DomainDiscoveryResult)
    (subtopicStructures : List SubtopicStructure)
    (assignments : List AssignmentResult)
    (fileIds : List (String × String)) : OntologyPersistenceResult :=
  let domainTopics := insertTopLevelDomainTopics domains.topLevelDomains "root"
  let subtopicTopics :=
    insertSubtopicTopics subtopicStructures (domainTopics.map (·.id))
  let links := insertTopicNodeLinks assignments subtopicTopics fileIds
  { rootTopicId := "root",
    topicCount := 1 + domainTopics.length + subtopicTopics.length,
    linkCount := links.length,
    coveragePercentage :=
      calculateCoverage links.length ((fileIds.map (·.1)).dedup.length) }

/-- `buildOntology` from `OntologyService`: the five phases in order, with
the LLM phases as `Except`-returning oracles (`discover`, `subtopicPhase`,
`assignPhase`), the embedding gateway as `embed`, and the `Date.now()`
samples as the `timing` oracle. Every phase error is re-thrown wrapped in
the fixed `"Ontology extraction failed: "` prefix. The running LLM-call
counter increments by 1 after discovery and by the domain count after each
of the subtopic and assignment phases; embedding calls never touch it. -/
noncomputable def buildOntology (embed : String → List ℝ)
    (discover : List FileContext → List DirectoryContext →
      Except String DomainDiscoveryResult)
    (subtopicPhase : List DomainCluster → Except String (List SubtopicStructure))
    (assignPhase : List DomainWithSubtopics → Except String (List AssignmentResult))
    (timing : OntologyTiming)
    (fileRecords : List FileRecord)
    (directoryRecords : List DirectoryRecord) :
    Except String OntologyBuildResult :=
  let fileContexts := fileContextsOf fileRecords
  let directoryContexts := directoryContextsOf directoryRecords
  match discover fileContexts directoryContexts with
  | Except.error e => Except.error ("Ontology extraction failed: " ++ e)
  | Except.ok domains =>
    let llmAfterDiscovery := 1
    let clusters := generateStructureForDomains embed fileContexts domains
    let quality := analyzeClusterQuality clusters
    match subtopicPhase clusters with
    | Except.error e => Except.error ("Ontology extraction failed: " ++ e)
    | Except.ok subtopicStructures =>
      let llmAfterSubtopics :=
        llmAfterDiscovery + domains.topLevelDomains.length
      let domainsWithSubtopics :=
        (clusters.zip subtopicStructures).map (fun p =>
          { domain := p.1.domain,
            candidates := p.1.candidates.map (fun c =>
              ({ path := c.path, title := c.title,
                  summary := c.summary } : FileCandidate)),
            subtopics := p.2 })
      match assignPhase domainsWithSubtopics with
      | Except.error e => Except.error ("Ontology extraction failed: " ++ e)
      | Except.ok assignments =>
        let llmAfterAssignments :=
          llmAfterSubtopics + domains.topLevelDomains.length
        let fileIds := fileRecords.map (fun f => (f.path, f.id))
        let persistence :=
          persistOntologyToDatabase domains subtopicStructures assignments fileIds
        Except.ok { persistence := persistence, timing := timing,
                    quality := quality, llmCallCount := llmAfterAssignments }

/-- C9: on every successful run whose domain discovery returned `domains`,
the reported `llmCallCount` is exactly `1 + D + D` for
`D = domains.topLevelDomains.length` — one discovery call, one subtopic
call per domain, one assignment call per domain; embedding calls are not
counted because no other site touches the counter. -/
theorem buildOntology_llmCallCount (embed : String → List ℝ)
    (discover : List FileContext → List DirectoryContext →
      Except String DomainDiscoveryResult)
    (subtopicPhase : List DomainCluster → Except String (List SubtopicStructure))
    (assignPhase : List DomainWithSubtopics → Except String (List AssignmentResult))
    (timing : OntologyTiming)
    (fileRecords : List FileRecord)
    (directoryRecords : List DirectoryRecord)
    (domains : DomainDiscoveryResult) (res : OntologyBuildResult)
    (hdisc : discover (fileContextsOf fileRecords)
        (directoryContextsOf directoryRecords) = Except.ok domains)
    (hok : buildOntology embed discover subtopicPhase assignPhase timing
        fileRecords directoryRecords = Except.ok res) :
    res.llmCallCount =
      1 + domains.topLevelDomains.length + domains.topLevelDomains.length := by
  simp only [buildOntology, hdisc] at hok
  split at hok
  · exact absurd hok (by simp)
  · split at hok
    · exact absurd hok (by simp)
    · have := Except.ok.inj hok
      subst this
      rfl

/-- All-zero timing record for concrete runs. -/
noncomputable def zeroTiming : OntologyTiming :=
  { embeddingTime := 0, domainDiscoveryTime := 0, clusteringTime := 0,
    subtopicTime := 0, assignmentTime := 0, persistenceTime := 0,
    totalTime := 0 }

/-- A concrete discovery result with two top-level domains. -/
def demoDiscovery : DomainDiscoveryResult :=
  ⟨⟨"Repository", "Everything in the repository"⟩,
    [⟨"Authentication", "Login and identity"⟩,
      ⟨"User Interface", "Screens and components"⟩]⟩

/-- Witness for C9: a concrete successful run with 2 discovered domains
reports `llmCallCount = 1 + 2 + 2`. -/
theorem buildOntology_llmCallCount_witness :
    ∃ res, buildOntology (fun _ => ([] : List ℝ))
          (fun _ _ => Except.ok demoDiscovery)
          (fun _ => Except.ok []) (fun _ => Except.ok [])
          zeroTiming [] [] = Except.ok res
      ∧ res.llmCallCount = 1 + demoDiscovery.topLevelDomains.length
          + demoDiscovery.topLevelDomains.length := by
  refine ⟨_, rfl, ?_⟩
  exact buildOntology_llmCallCount (fun _ => ([] : List ℝ))
    (fun _ _ => Except.ok demoDiscovery) (fun _ => Except.ok [])
    (fun _ => Except.ok []) zeroTiming [] [] demoDiscovery _ rfl rfl

/-- A concrete file context for the coverage witness. -/
def demoFileContext : FileContext :=
  ⟨"f1", "src/auth/login.ts", "Login", "Handles user login"⟩

/-- Witness for C1: under a constant one-dimensional embedding oracle, the
single demo file's id is covered by some returned cluster. -/
theorem generateStructureForDomains_coverage_witness :
    ∃ c ∈ generateStructureForDomains (fun _ => [(1 : ℝ)])
        [demoFileContext] demoDiscovery,
      demoFileContext.id ∈ c.candidates.map (·.id) :=
  generateStructureForDomains_coverage (fun _ => [(1 : ℝ)])
    [demoFileContext] demoDiscovery (by simp) (by simp [demoDiscovery])
    ⟨1, fun _ _ => rfl, fun _ _ => rfl⟩ demoFileContext (by simp)

/-- Concrete subtopic structures for the hierarchy witness: two subtopics
for the first demo domain, one for the second. -/
def demoSubtopicStructures : List SubtopicStructure :=
  [⟨[⟨"Login", "Login flows"⟩, ⟨"Registration", "Account creation"⟩]⟩,
    ⟨[⟨"Buttons", "Button components"⟩]⟩]

/-- Witness for C4: the hierarchy invariant holds for the concrete
two-domain, three-subtopic ontology. -/
theorem persistedTopics_hierarchy_witness :
    (persistedTopics demoDiscovery demoSubtopicStructures).countP
      (·.isRoot) = 1 :=
  (persistedTopics_hierarchy demoDiscovery demoSubtopicStructures rfl).1

end Ktree
